import Mathlib

/-
Verification of the prompt-engineering core of `app.py`:
the metrics calculator (`calculate_metrics`), the technique registry
(`PROMPT_TECHNIQUES`), the orchestrator
(`apply_prompt_engineering_techniques`), and the optimize-button handler in
`main` (modelled as `optimize_click`).  Python floats are modelled by `ℚ`;
Python `int` by `ℕ`/`ℤ`; the wall-clock timestamp of a history record is an
abstract `ℕ` input.
-/

/-- The ASCII whitespace characters recognised by Python `str.split()`. -/
def pyIsSpace (c : Char) : Bool :=
  c = ' ' || c = '\t' || c = '\n' || c = '\r' || c = '\x0b' || c = '\x0c'

/-- Helper for `pyWords`: splits a character list on whitespace runs,
accumulating the current (reversed) word. -/
def splitWordsAux : List Char → List Char → List String
  | [], acc => if acc.isEmpty then [] else [String.mk acc.reverse]
  | c :: cs, acc =>
    if pyIsSpace c then
      (if acc.isEmpty then [] else [String.mk acc.reverse]) ++ splitWordsAux cs []
    else
      splitWordsAux cs (c :: acc)

/-- Embeds Python `text.split()`: the maximal whitespace-free runs of `text`
(leading/trailing/repeated whitespace produces no empty words). -/
def pyWords (text : String) : List String :=
  splitWordsAux text.data []

/-- A sentence-terminating character, as in the regex `[.!?]+` of
`calculate_metrics`. -/
def isTerminator (c : Char) : Bool :=
  c = '.' || c = '!' || c = '?'

/-- Counts maximal runs of sentence terminators; the flag records whether the
previous character was a terminator. -/
def countRuns : List Char → Bool → Nat
  | [], _ => 0
  | c :: cs, inRun =>
    if isTerminator c then
      (if inRun then 0 else 1) + countRuns cs true
    else
      countRuns cs false

/-- Embeds the sentence count of `calculate_metrics` (a findall of the regex
class of `.`, `!`, `?` repeated): the number of maximal terminator runs. -/
def sentenceCount (text : String) : Nat :=
  countRuns text.data false

/-- The record returned by `calculate_metrics`. -/
structure Metrics where
  word_count : Nat
  char_count : Nat
  sentence_count : Nat
  avg_word_length : ℚ
  clarity_score : ℚ
  estimated_tokens : Nat
deriving DecidableEq

/-- Embeds Python `round(x, d)` on the rational model of floats (round to `d`
decimal places; half-way cases follow `round`). -/
def roundTo (d : Nat) (q : ℚ) : ℚ :=
  ((round (q * 10 ^ d) : ℤ) : ℚ) / 10 ^ d

/-- Embeds `calculate_metrics` from `app.py`.  `estimated_tokens` embeds
`int(word_count * 1.3)`: truncation of the float product, which coincides with
`13 * word_count / 10` (the exact floor) for every realizable word count,
since the double nearest 1.3 exceeds 13/10 by less than 2⁻⁵². -/
def calculate_metrics (text : String) : Metrics :=
  let word_count := (pyWords text).length
  let char_count := text.length
  let sentence_count := sentenceCount text
  let avg_word_length : ℚ :=
    (((pyWords text).map String.length).sum : ℚ) / (max word_count 1 : ℚ)
  let clarity_score : ℚ :=
    min 100 (max 0 (100 - |15 - avg_word_length| * 5 -
      |20 - ((word_count : ℚ) / (max sentence_count 1 : ℚ))| * 2))
  let estimated_tokens := 13 * word_count / 10
  { word_count := word_count
    char_count := char_count
    sentence_count := sentence_count
    avg_word_length := roundTo 2 avg_word_length
    clarity_score := roundTo 1 clarity_score
    estimated_tokens := estimated_tokens }

/-- The clarity formula exactly as the spec words it (§4.1 design (a)):
`clamp(0,100, 100 − |15 − avg_word_length|·5 − |20 − words_per_sentence|·2)`,
with the word/sentence statistics of the text and floored divisors.  Used to
compare the spec wording with what `calculate_metrics` returns. -/
def spec_clarity (text : String) : ℚ :=
  let wc := (pyWords text).length
  let sc := sentenceCount text
  let avg : ℚ := (((pyWords text).map String.length).sum : ℚ) / (max wc 1 : ℚ)
  min 100 (max 0 (100 - |15 - avg| * 5 - |20 - ((wc : ℚ) / (max sc 1 : ℚ))| * 2))

theorem roundTo_nonneg (d : Nat) (q : ℚ) (h : 0 ≤ q) : 0 ≤ roundTo d q := by
  unfold roundTo
  apply div_nonneg _ (by positivity)
  have : (0 : ℤ) ≤ round (q * 10 ^ d) := by
    rw [round_eq, Int.le_floor]
    push_cast
    nlinarith [pow_pos (show (0:ℚ) < 10 by norm_num) d]
  exact_mod_cast this

theorem roundTo_le_hundred (d : Nat) (q : ℚ) (h : q ≤ 100) : roundTo d q ≤ 100 := by
  unfold roundTo
  rw [div_le_iff₀ (by positivity)]
  have hle : round (q * 10 ^ d) ≤ 100 * 10 ^ d := by
    rw [round_eq]
    have h1 : q * 10 ^ d + 1 / 2 ≤ ((100 * 10 ^ d : ℤ) : ℚ) + 1 / 2 := by
      push_cast
      have := mul_le_mul_of_nonneg_right h (show (0:ℚ) ≤ 10 ^ d by positivity)
      linarith
    calc ⌊q * 10 ^ d + 1 / 2⌋ ≤ ⌊((100 * 10 ^ d : ℤ) : ℚ) + 1 / 2⌋ := Int.floor_le_floor h1
      _ = 100 * 10 ^ d + ⌊(1:ℚ)/2⌋ := Int.floor_int_add _ _
      _ = 100 * 10 ^ d := by norm_num
  calc ((round (q * 10 ^ d) : ℤ) : ℚ) ≤ ((100 * 10 ^ d : ℤ) : ℚ) := by exact_mod_cast hle
    _ = 100 * 10 ^ d := by push_cast; ring

/-- C1 counterexample: the code truncates `word_count * 1.3` (`int(...)`)
instead of rounding it.  On the spec scenario text the returned token estimate
is 3, while rounding `3 × 1.3` gives 4. -/
theorem C1_tokens_not_rounded :
    ((calculate_metrics "Write a function.").estimated_tokens : ℤ) ≠
      round (((calculate_metrics "Write a function.").word_count : ℚ) * (13 / 10)) ∧
    (calculate_metrics "Write a function.").word_count = 3 ∧
    (calculate_metrics "Write a function.").sentence_count = 1 ∧
    (calculate_metrics "Write a function.").estimated_tokens = 3 := by
  have hw : (calculate_metrics "Write a function.").word_count = 3 := by decide
  have hs : (calculate_metrics "Write a function.").sentence_count = 1 := by decide
  have he : (calculate_metrics "Write a function.").estimated_tokens = 3 := by decide
  refine ⟨?_, hw, hs, he⟩
  rw [he, hw]
  norm_num [round_eq]

/-- C1 (amended): for every non-empty text, the token estimate is the FLOOR of
`word_count × 1.3`, and on `"Write a function."` the metrics are
word_count = 3, sentence_count = 1, estimated_token_count = 3. -/
theorem C1_estimated_tokens_floor (t : String) (_h : t ≠ "") :
    (calculate_metrics t).estimated_tokens =
      ⌊((calculate_metrics t).word_count : ℚ) * (13 / 10)⌋₊ ∧
    (calculate_metrics "Write a function.").word_count = 3 ∧
    (calculate_metrics "Write a function.").sentence_count = 1 ∧
    (calculate_metrics "Write a function.").estimated_tokens = 3 := by
  refine ⟨?_, by decide, by decide, by decide⟩
  have hcast : ((calculate_metrics t).word_count : ℚ) * (13 / 10) =
      ((13 * (calculate_metrics t).word_count : ℕ) : ℚ) / ((10 : ℕ) : ℚ) := by
    push_cast
    ring
  rw [hcast, Nat.floor_div_eq_div]
  rfl

theorem C1_estimated_tokens_floor_witness :
    (calculate_metrics "Write a function.").estimated_tokens =
      ⌊((calculate_metrics "Write a function.").word_count : ℚ) * (13 / 10)⌋₊ ∧
    (calculate_metrics "Write a function.").word_count = 3 ∧
    (calculate_metrics "Write a function.").sentence_count = 1 ∧
    (calculate_metrics "Write a function.").estimated_tokens = 3 :=
  C1_estimated_tokens_floor "Write a function." (by decide)

/-- C5 counterexample: `calculate_metrics` rounds the clarity score to one
decimal place before returning it, so on a text whose clamp-formula value is
193/3 the returned score is 64.3, not the formula value. -/
theorem C5_clarity_not_exact :
    (calculate_metrics "aaaaaaaaaaaaaaa bbbbbbbbbbbbbbb cccccccccccccc").clarity_score ≠
      spec_clarity "aaaaaaaaaaaaaaa bbbbbbbbbbbbbbb cccccccccccccc" := by
  have h2 : sentenceCount "aaaaaaaaaaaaaaa bbbbbbbbbbbbbbb cccccccccccccc" = 0 := by decide
  have h3 : ((pyWords "aaaaaaaaaaaaaaa bbbbbbbbbbbbbbb cccccccccccccc").map
      String.length).sum = 44 := by decide
  have h4 : (pyWords "aaaaaaaaaaaaaaa bbbbbbbbbbbbbbb cccccccccccccc").length = 3 := by decide
  have habs : |(1:ℚ)/3| = 1/3 := abs_of_nonneg (by norm_num)
  have hc : (calculate_metrics
      "aaaaaaaaaaaaaaa bbbbbbbbbbbbbbb cccccccccccccc").clarity_score = 643 / 10 := by
    simp only [calculate_metrics, h2, h3, h4, roundTo]
    norm_num [round_eq, min_def, max_def, habs]
  have hs : spec_clarity "aaaaaaaaaaaaaaa bbbbbbbbbbbbbbb cccccccccccccc" = 193 / 3 := by
    simp only [spec_clarity, h2, h3, h4]
    norm_num [min_def, max_def, habs]
  rw [hc, hs]
  norm_num

/-- C5 (amended): the returned clarity score is the spec clamp formula rounded
to ONE decimal place, and it is bounded in [0, 100]. -/
theorem C5_clarity_rounded_clamp (t : String) :
    (calculate_metrics t).clarity_score = roundTo 1 (spec_clarity t) ∧
    0 ≤ (calculate_metrics t).clarity_score ∧
    (calculate_metrics t).clarity_score ≤ 100 := by
  have h0 : 0 ≤ spec_clarity t := le_min (by norm_num) (le_max_left _ _)
  have h1 : spec_clarity t ≤ 100 := min_le_left _ _
  exact ⟨rfl, roundTo_nonneg 1 _ h0, roundTo_le_hundred 1 _ h1⟩

/-- C6: no ratio in `calculate_metrics` divides by zero: the word-length
divisor and the sentence divisor are floored at 1 (so a text with no terminal
punctuation gets sentence divisor 1), and the function is total, evaluating on
the empty string to the all-zero metrics record. -/
theorem C6_total_no_div_zero :
    (∀ t : String,
      0 < max (pyWords t).length 1 ∧
      0 < max (sentenceCount t) 1 ∧
      (sentenceCount t = 0 → max (sentenceCount t) 1 = 1)) ∧
    calculate_metrics "" =
      { word_count := 0, char_count := 0, sentence_count := 0,
        avg_word_length := 0, clarity_score := 0, estimated_tokens := 0 } := by
  constructor
  · intro t
    refine ⟨by omega, by omega, fun h => by omega⟩
  · have h1 : pyWords "" = [] := by decide
    have h2 : sentenceCount "" = 0 := by decide
    have h3 : String.length "" = 0 := by decide
    simp only [calculate_metrics, h1, h2, h3, roundTo, Metrics.mk.injEq]
    norm_num [round_eq, min_def, max_def]

/-- One entry of the technique registry: display name, description, example
blurb and the transformation rule (the Python lambda under key `apply`). -/
structure Technique where
  name : String
  description : String
  exampleText : String
  apply : String → String

/-- Rule of technique `xml_tags` (registry category "Claude Best Practices"). -/
def xml_tags_apply (p : String) : String :=
  "<task>\n" ++ p ++ "\n</task>\n\n<instructions>\nPlease provide a comprehensive response following these guidelines:\n- Be specific and detailed in your answer\n- Use structured formatting where appropriate\n- Include examples when helpful\n</instructions>"

/-- Rule of technique `thinking_tags`. -/
def thinking_tags_apply (p : String) : String :=
  "<task>\n" ++ p ++ "\n</task>\n\n<thinking_process>\nBefore answering, please:\n1. Break down the key components of this request\n2. Consider multiple approaches\n3. Identify potential challenges or edge cases\n4. Formulate a comprehensive response\n</thinking_process>\n\nPlease think through this step-by-step and provide your reasoning."

/-- Rule of technique `role_definition`. -/
def role_definition_apply (p : String) : String :=
  "You are an expert assistant with deep knowledge across multiple domains. Your role is to provide accurate, helpful, and well-structured responses.\n\n<task>\n" ++ p ++ "\n</task>\n\nApproach this task with expertise and attention to detail."

/-- Rule of technique `prefill_technique`. -/
def prefill_technique_apply (p : String) : String :=
  p ++ "\n\nPlease structure your response as follows:\n1. **Overview**: Brief summary of the approach\n2. **Detailed Analysis**: Step-by-step breakdown\n3. **Key Insights**: Important points to consider\n4. **Recommendations**: Actionable next steps\n\nLet me help you with this:"

/-- Rule of technique `system_message` (category "OpenAI Best Practices"). -/
def system_message_apply (p : String) : String :=
  "System: You are a helpful, accurate, and creative AI assistant. Follow these principles:\n- Provide detailed, well-structured responses\n- Use examples to illustrate complex points\n- Admit uncertainty when appropriate\n- Focus on being helpful and constructive\n\nUser request:\n" ++ p

/-- Rule of technique `few_shot`. -/
def few_shot_apply (p : String) : String :=
  "Here are examples of the type of response I\x27m looking for:\n\nExample 1:\nInput: [Similar task]\nOutput: [Detailed, well-structured response]\n\nExample 2:\nInput: [Another similar task]\nOutput: [Another detailed response]\n\nNow, for my actual request:\n" ++ p ++ "\n\nPlease follow the same detailed, structured approach as shown in the examples."

/-- Rule of technique `json_mode`. -/
def json_mode_apply (p : String) : String :=
  p ++ "\n\nPlease provide your response in the following structured format:\n```\n### Main Points\n- Point 1: [Details]\n- Point 2: [Details]\n\n### Analysis\n[Your detailed analysis]\n\n### Conclusion\n[Summary and recommendations]\n```"

/-- Rule of technique `temperature_guidance`. -/
def temperature_guidance_apply (p : String) : String :=
  "[This task requires balanced creativity and accuracy]\n\n" ++ p ++ "\n\nNote: Please provide a response that balances factual accuracy with creative insights."

/-- Rule of technique `chain_of_thought` (category "Universal Techniques"). -/
def chain_of_thought_apply (p : String) : String :=
  p ++ "\n\nLet\x27s think through this step-by-step:\n1. First, identify the key components\n2. Then, analyze each part carefully\n3. Finally, synthesize a comprehensive response\n\nPlease show your reasoning process."

/-- Rule of technique `task_decomposition`. -/
def task_decomposition_apply (p : String) : String :=
  "This is a complex request that we\x27ll break down into parts:\n\nMain Task: " ++ p ++ "\n\nLet\x27s address this by:\nPart A: [First component]\nPart B: [Second component]\nPart C: [Third component]\n\nPlease address each part thoroughly and then provide an integrated conclusion."

/-- Rule of technique `constraints_and_requirements`. -/
def constraints_and_requirements_apply (p : String) : String :=
  p ++ "\n\nRequirements:\n- Be comprehensive but concise\n- Use specific examples\n- Cite sources when making claims\n- Structure the response clearly\n- Focus on practical applications\n\nConstraints:\n- Avoid jargon without explanation\n- Keep response focused on the query\n- Ensure accuracy over speculation"

/-- Rule of technique `self_consistency`. -/
def self_consistency_apply (p : String) : String :=
  p ++ "\n\nAfter providing your response, please:\n1. Verify the accuracy of any facts or figures\n2. Ensure logical consistency throughout\n3. Check that all parts of the question are addressed\n4. Confirm the response is helpful and actionable"

/-- Rule of technique `role_play_expert`. -/
def role_play_expert_apply (p : String) : String :=
  "You are a world-class expert in the relevant field for this query. Drawing on your extensive knowledge and experience:\n\n" ++ p ++ "\n\nPlease provide an expert-level response that demonstrates deep understanding and practical insights."

/-- Rule of technique `emotional_appeal`. -/
def emotional_appeal_apply (p : String) : String :=
  p ++ "\n\nThis is a critical task that requires your best analysis. Please provide a thorough, thoughtful response that addresses all aspects of the query. Your insights will be valuable for important decision-making."

/-- Rule of technique `tree_of_thoughts` (category "Advanced Techniques"). -/
def tree_of_thoughts_apply (p : String) : String :=
  p ++ "\n\nPlease approach this by:\n1. Considering multiple possible solutions or interpretations\n2. Evaluating the pros and cons of each approach\n3. Selecting the most promising path(s)\n4. Providing a detailed exploration of the best option(s)\n\nShow your thought process for each alternative considered."

/-- Rule of technique `react_pattern`. -/
def react_pattern_apply (p : String) : String :=
  p ++ "\n\nUse the following approach:\nThought: What do I need to understand first?\nAction: What information or analysis is needed?\nObservation: What insights does this provide?\nThought: Based on this, what\x27s next?\n[Continue until complete]\n\nPlease show this reasoning-action cycle in your response."

/-- Rule of technique `meta_prompting`. -/
def meta_prompting_apply (p : String) : String :=
  "Before answering, let\x27s first ensure we\x27re addressing the right question:\n\nOriginal request: " ++ p ++ "\n\nPlease:\n1. Identify any ambiguities or assumptions in the request\n2. Clarify what would make the most helpful response\n3. Then provide a comprehensive answer to the refined question"

/-- Rule of technique `analogical_reasoning`. -/
def analogical_reasoning_apply (p : String) : String :=
  p ++ "\n\nIn your response:\n1. Draw analogies to similar, well-understood concepts\n2. Use comparative analysis where helpful\n3. Provide concrete examples and metaphors\n4. Connect abstract ideas to practical applications"

/-- The `PROMPT_TECHNIQUES` registry of `app.py`: categories in declaration
order, each an association list id → Technique in declaration order. -/
def PROMPT_TECHNIQUES : List (String × List (String × Technique)) :=
  [("Claude Best Practices",
    [("xml_tags", ⟨"XML Tag Structure", "Use XML tags for clear structure and parsing",
      "Transform prompt into XML-tagged sections for clarity", xml_tags_apply⟩),
     ("thinking_tags", ⟨"Chain of Thought with Thinking Tags", "Add thinking tags for complex reasoning",
      "Encourages step-by-step reasoning", thinking_tags_apply⟩),
     ("role_definition", ⟨"Clear Role Definition", "Define a specific expert role",
      "You are an expert in [domain]...", role_definition_apply⟩),
     ("prefill_technique", ⟨"Assistant Prefilling", "Start the assistant\x27s response to guide format",
      "Begin response with structure", prefill_technique_apply⟩)]),
   ("OpenAI Best Practices",
    [("system_message", ⟨"System Message Optimization", "Clear system-level instructions",
      "Separate system context from user prompt", system_message_apply⟩),
     ("few_shot", ⟨"Few-Shot Examples", "Provide examples of desired output",
      "Show 2-3 examples of good responses", few_shot_apply⟩),
     ("json_mode", ⟨"Structured Output Format", "Request specific output format",
      "Specify JSON or markdown structure", json_mode_apply⟩),
     ("temperature_guidance", ⟨"Temperature and Parameter Hints", "Suggest optimal parameters",
      "Indicate if creative or factual response needed", temperature_guidance_apply⟩)]),
   ("Universal Techniques",
    [("chain_of_thought", ⟨"Chain of Thought (CoT)", "Add \x27think step by step\x27 instruction",
      "Let\x27s approach this step-by-step", chain_of_thought_apply⟩),
     ("task_decomposition", ⟨"Task Decomposition", "Break complex tasks into subtasks",
      "Divide into manageable components", task_decomposition_apply⟩),
     ("constraints_and_requirements", ⟨"Clear Constraints", "Specify limitations and requirements",
      "Must/must not instructions", constraints_and_requirements_apply⟩),
     ("self_consistency", ⟨"Self-Consistency Check", "Request verification of response",
      "Double-check accuracy", self_consistency_apply⟩),
     ("role_play_expert", ⟨"Expert Role-Playing", "Assume specific expert persona",
      "Act as domain expert", role_play_expert_apply⟩),
     ("emotional_appeal", ⟨"Motivation Enhancement", "Add importance/urgency to prompt",
      "This is important for my project", emotional_appeal_apply⟩)]),
   ("Advanced Techniques",
    [("tree_of_thoughts", ⟨"Tree of Thoughts (ToT)", "Explore multiple solution paths",
      "Consider alternative approaches", tree_of_thoughts_apply⟩),
     ("react_pattern", ⟨"ReAct (Reasoning + Acting)", "Combine reasoning with action steps",
      "Think, then act, then observe", react_pattern_apply⟩),
     ("meta_prompting", ⟨"Meta-Prompting", "Prompt about how to approach the prompt",
      "First improve the question itself", meta_prompting_apply⟩),
     ("analogical_reasoning", ⟨"Analogical Reasoning", "Use analogies and comparisons",
      "Relate to familiar concepts", analogical_reasoning_apply⟩)])]

/-- One provider entry of the `MODELS` configuration table. -/
structure ProviderProfile where
  models : List String
  max_tokens : Nat
  best_techniques : List String
  pricing_input : ℚ
  pricing_output : ℚ

/-- The `MODELS` table of `app.py` (provider name → profile), in declaration
order. Prices are the per-1K-token rationals written as floats in the source. -/
def MODELS : List (String × ProviderProfile) :=
  [("Anthropic",
    ⟨["Claude 3 Opus", "Claude 3 Sonnet", "Claude 3.5 Sonnet", "Claude 3 Haiku"], 200000,
     ["xml_tags", "thinking_tags", "role_definition", "prefill_technique", "chain_of_thought"],
     15/1000, 75/1000⟩),
   ("OpenAI",
    ⟨["GPT-4 Turbo", "GPT-4", "GPT-3.5 Turbo"], 128000,
     ["system_message", "few_shot", "json_mode", "chain_of_thought", "task_decomposition"],
     1/100, 3/100⟩),
   ("Google",
    ⟨["Gemini 1.5 Pro", "Gemini 1.5 Flash", "Gemini 1.0 Pro"], 2000000,
     ["chain_of_thought", "task_decomposition", "role_play_expert", "constraints_and_requirements"],
     125/100000, 5/1000⟩)]

/-- The scan of the inner loop of `apply_prompt_engineering_techniques`: walk
the registry categories in order and return the first category containing the
id, together with the technique (Python `for category, techniques in
PROMPT_TECHNIQUES.items(): if technique_id in techniques: ... break`). -/
def findIn : List (String × List (String × Technique)) → String → Option (String × Technique)
  | [], _ => none
  | (cat, techs) :: rest, id =>
    match techs.find? (fun it => it.1 = id) with
    | some it => some (cat, it.2)
    | none => findIn rest id

/-- Look an id up across all registry categories. -/
def findTechnique (id : String) : Option (String × Technique) :=
  findIn PROMPT_TECHNIQUES id

/-- The provenance label recorded for an applied technique: the display name
followed by the category in parentheses, as formatted by the source. -/
def techLabel (cat : String) (t : Technique) : String :=
  t.name ++ " (" ++ cat ++ ")"

/-- One iteration of the technique-application loop: on a known id, transform
the running text and append the label; on an unknown id, do nothing. -/
def techStep (st : String × List String) (id : String) : String × List String :=
  match findTechnique id with
  | some ct => (ct.2.apply st.1, st.2 ++ [techLabel ct.1 ct.2])
  | none => st

/-- The fallback list used when the provider is not a `MODELS` key. -/
def default_recommended : List String :=
  ["chain_of_thought", "task_decomposition", "constraints_and_requirements"]

/-- Embeds `apply_prompt_engineering_techniques(prompt, provider,
selected_techniques)`: fold the selected ids through `techStep`; if no
technique was selected and the recommended list is non-empty, fold the top 3
provider-recommended ids instead. -/
def apply_prompt_engineering_techniques (prompt provider : String)
    (selected : List String) : String × List String :=
  let recommended :=
    match MODELS.find? (fun m => m.1 = provider) with
    | some m => m.2.best_techniques
    | none => default_recommended
  let r := selected.foldl techStep (prompt, [])
  if selected.isEmpty ∧ ¬ recommended.isEmpty then
    (recommended.take 3).foldl techStep r
  else
    r

/-- One history entry (`st.session_state.prompt_history` element); the
`datetime.now()` timestamp is an abstract number supplied by the caller. -/
structure HistoryRecord where
  timestamp : Nat
  original : String
  optimized : List (String × String)
  techniques : List (String × List String)
  metricsOf : Metrics

/-- Embeds the body of the optimize-button handler in `main`: if the prompt is
falsy (empty) nothing happens; otherwise every selected provider gets the
techniques applied to a fresh copy of the prompt, and a record is appended to
the history.  Returns the produced result (none when skipped) and the new
history. -/
def optimize_click (prompt : String) (providers : List String)
    (selected : List String) (now : Nat) (history : List HistoryRecord) :
    Option (List (String × String) × List (String × List String)) × List HistoryRecord :=
  if prompt = "" then
    (none, history)
  else
    let results := providers.map
      (fun pr => (pr, apply_prompt_engineering_techniques prompt pr selected))
    let optimized := results.map (fun x => (x.1, x.2.1))
    let techs := results.map (fun x => (x.1, x.2.2))
    (some (optimized, techs),
     history ++ [⟨now, prompt, optimized, techs, calculate_metrics prompt⟩])

/-- Sequential composition of the rules of a chain of ids, first id applied
first, unknown ids skipped (the "manual" composition the spec describes). -/
def chainApply (p : String) (ids : List String) : String :=
  ids.foldl (fun acc id =>
    match findTechnique id with
    | some ct => ct.2.apply acc
    | none => acc) p

/-- The provenance labels of a chain of ids, in application order, unknown ids
contributing nothing. -/
def chainProv (ids : List String) : List String :=
  ids.filterMap (fun id => (findTechnique id).map (fun ct => techLabel ct.1 ct.2))

theorem foldl_techStep_split (ids : List String) (p : String) (acc : List String) :
    ids.foldl techStep (p, acc) = (chainApply p ids, acc ++ chainProv ids) := by
  induction ids generalizing p acc with
  | nil => simp [chainApply, chainProv]
  | cons hd tl ih =>
    simp only [List.foldl_cons, chainApply, chainProv, List.filterMap_cons, techStep]
    cases hfd : findTechnique hd with
    | none => simpa [hfd, chainApply, chainProv] using ih p acc
    | some ct =>
      simp only [hfd, Option.map_some]
      rw [ih]
      simp [chainApply, chainProv]

theorem apply_explicit_eq (p provider : String) (ids : List String) (hids : ids ≠ []) :
    apply_prompt_engineering_techniques p provider ids = (chainApply p ids, chainProv ids) := by
  simp only [apply_prompt_engineering_techniques]
  rw [if_neg]
  · simpa using foldl_techStep_split ids p []
  · intro hcontra
    exact hids (List.isEmpty_iff.mp hcontra.1)

theorem chainApply_append (p : String) (l1 l2 : List String) :
    chainApply p (l1 ++ l2) = chainApply (chainApply p l1) l2 := by
  simp [chainApply, List.foldl_append]

theorem chainApply_cons_unknown (p id : String) (l : List String)
    (hu : findTechnique id = none) :
    chainApply p (id :: l) = chainApply p l := by
  simp [chainApply, hu]

theorem chainProv_append (l1 l2 : List String) :
    chainProv (l1 ++ l2) = chainProv l1 ++ chainProv l2 := by
  simp [chainProv]

theorem chainProv_cons_unknown (id : String) (l : List String)
    (hu : findTechnique id = none) :
    chainProv (id :: l) = chainProv l := by
  simp [chainProv, hu]

/-- C7: for a non-empty explicit chain, each provider receives the chain
applied sequentially to a fresh copy of the original prompt (the result of
`apply_prompt_engineering_techniques` is exactly the manual fold of the rules
with provenance in application order); the handler maps every provider to that
same composition of the original prompt; and on a two-element chain `[a, b]`
the output is b-rule applied to a-rule applied to the prompt, with provenance
`[label a, label b]`. -/
theorem C7_chain_composition (p provider a b : String) (ids providers : List String)
    (now : Nat) (history : List HistoryRecord) (cta ctb : String × Technique)
    (hids : ids ≠ []) (hp : p ≠ "")
    (ha : findTechnique a = some cta) (hb : findTechnique b = some ctb) :
    apply_prompt_engineering_techniques p provider ids =
      (chainApply p ids, chainProv ids) ∧
    (optimize_click p providers ids now history).1 =
      some (providers.map (fun pr => (pr, chainApply p ids)),
            providers.map (fun pr => (pr, chainProv ids))) ∧
    (apply_prompt_engineering_techniques p provider [a, b]).1 =
      ctb.2.apply (cta.2.apply p) ∧
    (apply_prompt_engineering_techniques p provider [a, b]).2 =
      [techLabel cta.1 cta.2, techLabel ctb.1 ctb.2] := by
  have key : ∀ prov : String, apply_prompt_engineering_techniques p prov ids =
      (chainApply p ids, chainProv ids) :=
    fun prov => apply_explicit_eq p prov ids hids
  have keyab : apply_prompt_engineering_techniques p provider [a, b] =
      (chainApply p [a, b], chainProv [a, b]) :=
    apply_explicit_eq p provider [a, b] (by simp)
  refine ⟨key provider, ?_, ?_, ?_⟩
  · simp only [optimize_click, if_neg hp]
    simp [key, Function.comp]
  · rw [keyab]
    simp [chainApply, ha, hb]
  · rw [keyab]
    simp [chainProv, ha, hb]

/-- C3 counterexample: an explicit selection listing `chain_of_thought` twice
applies it twice (two provenance entries), and a selection listing an
OpenAI-category technique before a Claude-category one is applied in exactly
the caller order, not registry-declaration order. -/
theorem C3_duplicate_applied_twice :
    ((apply_prompt_engineering_techniques "hi" "Anthropic"
        ["chain_of_thought", "chain_of_thought"]).2).length = 2 ∧
    (apply_prompt_engineering_techniques "hi" "Anthropic" ["few_shot", "xml_tags"]).2 =
      ["Few-Shot Examples (OpenAI Best Practices)",
       "XML Tag Structure (Claude Best Practices)"] := by
  exact ⟨rfl, rfl⟩

/-- C3 (amended): an explicit selection is applied in the order the caller
listed it, without deduplication: an id listed twice has its rule applied
twice and contributes two provenance labels. -/
theorem C3_no_dedup_caller_order (p provider id cat : String) (t : Technique)
    (h : findTechnique id = some (cat, t)) :
    (apply_prompt_engineering_techniques p provider [id, id]).1 = t.apply (t.apply p) ∧
    (apply_prompt_engineering_techniques p provider [id, id]).2 =
      [techLabel cat t, techLabel cat t] := by
  have hk : apply_prompt_engineering_techniques p provider [id, id] =
      (chainApply p [id, id], chainProv [id, id]) :=
    apply_explicit_eq p provider [id, id] (by simp)
  rw [hk]
  constructor
  · simp [chainApply, h]
  · simp [chainProv, h]

/-- C2 counterexample: with a non-empty prompt and an EMPTY provider set the
handler does not refuse: it silently returns an empty result map and still
appends a history record. -/
theorem C2_empty_providers_not_refused :
    (optimize_click "hi" [] [] 0 []).1 = some ([], []) ∧
    ((optimize_click "hi" [] [] 0 []).2).length = 1 := by
  exact ⟨rfl, rfl⟩

/-- C2 (amended): an empty prompt is silently skipped — the handler returns no
result, reports no error condition, and appends nothing to the history; an
empty provider set with a non-empty prompt is NOT refused: the handler returns
an empty result map and DOES append a history record. -/
theorem C2_empty_input_behavior (providers selected : List String) (now : Nat)
    (history : List HistoryRecord) (p : String) (hp : p ≠ "") :
    optimize_click "" providers selected now history = (none, history) ∧
    (optimize_click p [] selected now history).1 = some ([], []) ∧
    (optimize_click p [] selected now history).2 =
      history ++ [⟨now, p, [], [], calculate_metrics p⟩] := by
  refine ⟨by simp [optimize_click], ?_, ?_⟩ <;> simp [optimize_click, hp]

/-- C8: the optimizer is deterministic: equal (prompt, providers, selection)
inputs produce equal per-provider outputs and provenance, for any provider and
independently of the timestamp and of the history the handler is invoked
with. -/
theorem C8_deterministic (p q provider : String) (provs provs2 sel sel2 : List String)
    (n m : Nat) (h1 h2 : List HistoryRecord)
    (hpq : p = q) (hprovs : provs = provs2) (hsel : sel = sel2) :
    apply_prompt_engineering_techniques p provider sel =
      apply_prompt_engineering_techniques q provider sel2 ∧
    (optimize_click p provs sel n h1).1 = (optimize_click q provs2 sel2 m h2).1 := by
  subst hpq
  subst hprovs
  subst hsel
  refine ⟨rfl, ?_⟩
  by_cases hp : p = ""
  · simp [optimize_click, hp]
  · simp [optimize_click, hp]

/-- C9 counterexample: a selection consisting of ONLY an unknown id yields the
unmodified prompt with empty provenance, while the same call without the id
(an empty selection) triggers the provider-recommended fallback and yields a
different text — so the output is not always "the same as if the unknown id
had not been listed". -/
theorem C9_unknown_only_selection_differs :
    (apply_prompt_engineering_techniques "hi" "Anthropic" ["bogus_id"]).1 = "hi" ∧
    (apply_prompt_engineering_techniques "hi" "Anthropic" ["bogus_id"]).2 = [] ∧
    (apply_prompt_engineering_techniques "hi" "Anthropic" []).1 ≠ "hi" := by
  refine ⟨rfl, rfl, ?_⟩
  decide

/-- C9 (amended): an unknown id in an explicit selection is skipped silently,
contributes no provenance entry and raises no error: whenever the other
selected ids are non-empty the result equals the call without the unknown id;
a selection containing only unknown ids returns the prompt unchanged (which
differs from an empty selection, which falls back to the provider-recommended
techniques). -/
theorem C9_unknown_ids_skipped (p provider id : String) (pre post : List String)
    (hu : findTechnique id = none) (hne : pre ++ post ≠ []) :
    apply_prompt_engineering_techniques p provider (pre ++ id :: post) =
      apply_prompt_engineering_techniques p provider (pre ++ post) ∧
    apply_prompt_engineering_techniques p provider [id] = (p, []) := by
  constructor
  · rw [apply_explicit_eq p provider (pre ++ id :: post) (by simp),
      apply_explicit_eq p provider (pre ++ post) hne]
    rw [chainApply_append, chainApply_append, chainApply_cons_unknown _ _ _ hu,
      chainProv_append, chainProv_append, chainProv_cons_unknown _ _ hu]
  · rw [apply_explicit_eq p provider [id] (by simp)]
    rw [show chainApply p [id] = p by simp [chainApply, hu],
      show chainProv [id] = [] by simp [chainProv, hu]]

/-- The five task categories of the intent classifier (spec §4.3). -/
inductive Category where
  | coding
  | dataAnalysis
  | creative
  | reasoning
  | general
deriving DecidableEq

/-- Substring occurrence over character lists (Python `kw in text`). -/
def containsSub (text kw : List Char) : Bool :=
  match text with
  | [] => kw.isEmpty
  | _ :: rest => if List.isPrefixOf kw text then true else containsSub rest kw

/-- Whether `kw` occurs as a contiguous substring of `text`. -/
def containsKw (text kw : String) : Bool :=
  containsSub text.data kw.data

/-- ASCII lower-casing of a string (Python `str.lower()` on ASCII input). -/
def pyLower (s : String) : String :=
  String.mk (s.data.map Char.toLower)

/-- Modelled from the spec: the coding keyword set of the Intent Classifier
(§4.3), which is absent from the source under `src/` (the app defines no
`classify`); the spec requires "analyze this algorithm" to match this set. -/
def coding_keywords : List String :=
  ["code", "function", "algorithm", "program", "debug"]

/-- Modelled from the spec: the data-analysis keyword set; the spec requires
"analyze this algorithm" to also match this set (overlap resolved by
priority). -/
def data_keywords : List String :=
  ["analyze", "data", "statistics", "dataset", "trend"]

/-- Modelled from the spec: the creative keyword set. -/
def creative_keywords : List String :=
  ["story", "poem", "creative", "imagine", "blog"]

/-- Modelled from the spec: the reasoning keyword set. -/
def reasoning_keywords : List String :=
  ["explain", "why", "reason", "logic", "solve"]

/-- Modelled from the spec: `classify(text) -> Category` (§4.3): pure keyword
membership over the lower-cased input against the five fixed sets, tested in
priority order coding > data-analysis > creative > reasoning > general
fallback, first match winning. -/
def classify (text : String) : Category :=
  let t := pyLower text
  if coding_keywords.any (fun k => containsKw t k) then Category.coding
  else if data_keywords.any (fun k => containsKw t k) then Category.dataAnalysis
  else if creative_keywords.any (fun k => containsKw t k) then Category.creative
  else if reasoning_keywords.any (fun k => containsKw t k) then Category.reasoning
  else Category.general

/-- C4: the classifier is total and deterministic — every string (the empty
one included) maps to exactly one of the five fixed categories, the empty
string to the general fallback — and the documented priority order makes
"analyze this algorithm", which matches both the coding and the data-analysis
keyword sets, classify as coding. -/
theorem C4_classify_total_priority :
    (∀ t : String,
      classify t = Category.coding ∨ classify t = Category.dataAnalysis ∨
      classify t = Category.creative ∨ classify t = Category.reasoning ∨
      classify t = Category.general) ∧
    classify "" = Category.general ∧
    classify "analyze this algorithm" = Category.coding ∧
    coding_keywords.any (fun k => containsKw (pyLower "analyze this algorithm") k) = true ∧
    data_keywords.any (fun k => containsKw (pyLower "analyze this algorithm") k) = true := by
  refine ⟨fun t => ?_, by decide, by decide, by decide, by decide⟩
  cases h : classify t
  · exact Or.inl rfl
  · exact Or.inr (Or.inl rfl)
  · exact Or.inr (Or.inr (Or.inl rfl))
  · exact Or.inr (Or.inr (Or.inr (Or.inl rfl)))
  · exact Or.inr (Or.inr (Or.inr (Or.inr rfl)))

theorem str_append_ne_empty_right (a b : String) (hb : b ≠ "") : a ++ b ≠ "" := by
  intro h
  apply hb
  have hd : a.data ++ b.data = [] := congrArg String.data h
  exact congrArg String.mk (List.append_eq_nil.mp hd).2

theorem str_append_ne_empty_left (a b : String) (ha : a ≠ "") : a ++ b ≠ "" := by
  intro h
  apply ha
  have hd : a.data ++ b.data = [] := congrArg String.data h
  exact congrArg String.mk (List.append_eq_nil.mp hd).1

theorem str_append_empty (s : String) : s ++ "" = s :=
  congrArg String.mk (List.append_nil s.data)

/-- All (category, id, technique) entries of the registry, flattened in
declaration order. -/
def allTechniqueEntries : List (String × String × Technique) :=
  PROMPT_TECHNIQUES.flatMap (fun ct => ct.2.map (fun it => (ct.1, it.1, it.2)))

/-- C10: every transformation rule in the registry embeds its input verbatim
as a contiguous substring of its output (so the original prompt is always
recoverable), and never produces an empty string from a non-empty input; the
rules are pure Lean functions, hence deterministic and total. -/
theorem C10_rules_wrap_prompt (cat id : String) (t : Technique)
    (h : (cat, id, t) ∈ allTechniqueEntries) (p : String) :
    (∃ pre post, t.apply p = pre ++ p ++ post) ∧ (p ≠ "" → t.apply p ≠ "") := by
  simp only [allTechniqueEntries, PROMPT_TECHNIQUES, List.flatMap_cons, List.flatMap_nil,
    List.map_cons, List.map_nil, List.cons_append, List.nil_append, List.mem_cons,
    List.not_mem_nil, or_false, Prod.mk.injEq] at h
  repeat' rcases h with ⟨rfl, rfl, rfl⟩ | h
  all_goals try (rename_i hx; obtain ⟨rfl, rfl⟩ := hx)
  all_goals first
    | exact ⟨⟨_, _, rfl⟩, fun hp => str_append_ne_empty_right _ _ (by decide)⟩
    | exact ⟨⟨"", _, rfl⟩, fun hp => str_append_ne_empty_right _ _ (by decide)⟩
    | exact ⟨⟨_, "", (str_append_empty _).symm⟩,
        fun hp => str_append_ne_empty_left _ _ (by decide)⟩

theorem C10_rules_wrap_prompt_witness :
    (∃ pre post,
      Technique.apply
        ⟨"XML Tag Structure", "Use XML tags for clear structure and parsing",
         "Transform prompt into XML-tagged sections for clarity", xml_tags_apply⟩ "hi" =
        pre ++ "hi" ++ post) ∧
    ("hi" ≠ "" →
      Technique.apply
        ⟨"XML Tag Structure", "Use XML tags for clear structure and parsing",
         "Transform prompt into XML-tagged sections for clarity", xml_tags_apply⟩ "hi" ≠ "") :=
  C10_rules_wrap_prompt "Claude Best Practices" "xml_tags" _
    (by
      simp only [allTechniqueEntries, PROMPT_TECHNIQUES, List.flatMap_cons, List.flatMap_nil,
        List.map_cons, List.map_nil, List.cons_append, List.nil_append]
      exact List.mem_cons_self _ _) "hi"

theorem C2_empty_input_behavior_witness :
    optimize_click "" ["Anthropic"] [] 0 [] = (none, []) ∧
    (optimize_click "hi" [] [] 0 []).1 = some ([], []) ∧
    (optimize_click "hi" [] [] 0 []).2 =
      [] ++ [⟨0, "hi", [], [], calculate_metrics "hi"⟩] :=
  C2_empty_input_behavior ["Anthropic"] [] 0 [] "hi" (by decide)

theorem C3_no_dedup_caller_order_witness :
    (apply_prompt_engineering_techniques "hi" "X" ["chain_of_thought", "chain_of_thought"]).1 =
      Technique.apply
        ⟨"Chain of Thought (CoT)", "Add \x27think step by step\x27 instruction",
         "Let\x27s approach this step-by-step", chain_of_thought_apply⟩
        (Technique.apply
          ⟨"Chain of Thought (CoT)", "Add \x27think step by step\x27 instruction",
           "Let\x27s approach this step-by-step", chain_of_thought_apply⟩ "hi") ∧
    (apply_prompt_engineering_techniques "hi" "X" ["chain_of_thought", "chain_of_thought"]).2 =
      [techLabel "Universal Techniques"
        ⟨"Chain of Thought (CoT)", "Add \x27think step by step\x27 instruction",
         "Let\x27s approach this step-by-step", chain_of_thought_apply⟩,
       techLabel "Universal Techniques"
        ⟨"Chain of Thought (CoT)", "Add \x27think step by step\x27 instruction",
         "Let\x27s approach this step-by-step", chain_of_thought_apply⟩] :=
  C3_no_dedup_caller_order "hi" "X" "chain_of_thought" "Universal Techniques" _ rfl

theorem C7_chain_composition_witness :
    apply_prompt_engineering_techniques "hi" "X" ["chain_of_thought"] =
      (chainApply "hi" ["chain_of_thought"], chainProv ["chain_of_thought"]) ∧
    (optimize_click "hi" ["Anthropic"] ["chain_of_thought"] 0 []).1 =
      some (["Anthropic"].map (fun pr => (pr, chainApply "hi" ["chain_of_thought"])),
            ["Anthropic"].map (fun pr => (pr, chainProv ["chain_of_thought"]))) ∧
    (apply_prompt_engineering_techniques "hi" "X" ["xml_tags", "thinking_tags"]).1 =
      Technique.apply
        ⟨"Chain of Thought with Thinking Tags", "Add thinking tags for complex reasoning",
         "Encourages step-by-step reasoning", thinking_tags_apply⟩
        (Technique.apply
          ⟨"XML Tag Structure", "Use XML tags for clear structure and parsing",
           "Transform prompt into XML-tagged sections for clarity", xml_tags_apply⟩ "hi") ∧
    (apply_prompt_engineering_techniques "hi" "X" ["xml_tags", "thinking_tags"]).2 =
      [techLabel "Claude Best Practices"
        ⟨"XML Tag Structure", "Use XML tags for clear structure and parsing",
         "Transform prompt into XML-tagged sections for clarity", xml_tags_apply⟩,
       techLabel "Claude Best Practices"
        ⟨"Chain of Thought with Thinking Tags", "Add thinking tags for complex reasoning",
         "Encourages step-by-step reasoning", thinking_tags_apply⟩] :=
  C7_chain_composition "hi" "X" "xml_tags" "thinking_tags" ["chain_of_thought"]
    ["Anthropic"] 0 [] _ _ (by decide) (by decide) rfl rfl

theorem C8_deterministic_witness :
    apply_prompt_engineering_techniques "hi" "X" [] =
      apply_prompt_engineering_techniques "hi" "X" [] ∧
    (optimize_click "hi" ["Anthropic"] [] 0 []).1 =
      (optimize_click "hi" ["Anthropic"] [] 1 []).1 :=
  C8_deterministic "hi" "hi" "X" ["Anthropic"] ["Anthropic"] [] [] 0 1 [] [] rfl rfl rfl

theorem C9_unknown_ids_skipped_witness :
    apply_prompt_engineering_techniques "hi" "Anthropic" (["xml_tags"] ++ "bogus_id" :: []) =
      apply_prompt_engineering_techniques "hi" "Anthropic" (["xml_tags"] ++ []) ∧
    apply_prompt_engineering_techniques "hi" "Anthropic" ["bogus_id"] = ("hi", []) :=
  C9_unknown_ids_skipped "hi" "Anthropic" "bogus_id" ["xml_tags"] [] rfl (by decide)
